import Mathlib

/-!
Verification of the timestamp-jitter engine of the deid repository
(`deid/dicom/actions/jitter.py`).

The file has three layers:

1.  A shallow embedding of the Python data model: field values are `none`,
    a scalar string, a plain list of strings or a pydicom `MultiValue`
    (both collections are modelled as `List String`); the logging sink is
    modelled as an explicit list of `(level, message)` entries returned
    alongside the result.

2.  `jitter_timestamp` and its helpers, translated statement by statement
    from `jitter.py`.  The external shift primitive `get_timestamp` is a
    parameter (`Shift`) of every function, because the Python module
    imports it from `deid.utils`, which is outside the sources being
    verified; a concrete instance `get_timestamp`, modelled from the
    specification of the primitive, is provided for concrete evaluation.

3.  Theorems about those definitions.
-/

set_option autoImplicit false

namespace Deid

/-! ## Logging model -/

inductive LogLevel
  | debug
  | info
  | warning
  | error
deriving DecidableEq, Repr

structure LogEntry where
  level : LogLevel
  msg : String
deriving DecidableEq, Repr

/-! ## Value and field model -/

/-- The shapes a DICOM element value can take in `jitter_timestamp`:
`None`, a scalar string, a plain Python list of strings, or a pydicom
`MultiValue` (also an ordered sequence of strings). -/
inductive DicomValue
  | none
  | str (s : String)
  | list (xs : List String)
  | multi (xs : List String)
deriving DecidableEq, Repr

/-- The part of a pydicom data element that `jitter_timestamp` reads:
the value representation tag `VR` and the current value. -/
structure DicomElement where
  VR : String
  value : DicomValue
deriving DecidableEq, Repr

/-- The field handle passed to `jitter_timestamp`: a `name` used in log
messages and the underlying element. -/
structure DicomField where
  name : String
  element : DicomElement
deriving DecidableEq, Repr

/-- The external shift primitive: `get_timestamp(raw, jitter_days, format)`
either returns a shifted string or raises; a raise is modelled as
`Except.error` carrying the exception text. -/
abbrev Shift := String → Int → String → Except String String

/-! ## Character-list string primitives

The Lean `String` library implements `trim`, `splitOn`, `startsWith`,
`toNat?` and friends on byte positions with well-founded recursion, which
does not reduce inside the kernel; the primitives below compute the same
operations structurally on `List Char` so that every theorem about a
concrete input can be checked by evaluation. -/

def digitVal (c : Char) : Nat := c.toNat - 48

def natOfDigits (l : List Char) : Nat :=
  l.foldl (fun a c => a * 10 + digitVal c) 0

def allDigits (l : List Char) : Bool := l.all Char.isDigit

def charsTrim (l : List Char) : List Char :=
  ((l.dropWhile Char.isWhitespace).reverse.dropWhile Char.isWhitespace).reverse

/-- All-digit, non-empty character list to its numeric value. -/
def charsToNat? (l : List Char) : Option Nat :=
  if l.isEmpty then Option.none
  else if allDigits l then some (natOfDigits l) else Option.none

/-- Split a character list at every occurrence of `c`, like Python
`str.split` with a one-character separator. -/
def splitOnChar (c : Char) : List Char → List (List Char)
  | [] => [[]]
  | x :: xs =>
    let r := splitOnChar c xs
    if x == c then [] :: r
    else
      match r with
      | h :: t => (x :: h) :: t
      | [] => [[x]]

def startsWithBracket (s : String) : Bool :=
  match s.toList with
  | c :: _ => c == '['
  | [] => false

def endsWithBracket (s : String) : Bool :=
  match s.toList.getLast? with
  | some c => c == ']'
  | Option.none => false

/-! ## Python `int()` on strings -/

/-- Model of Python `int(s)` for a string argument: strip surrounding
whitespace, allow one optional sign, then decimal digits; anything else
raises `ValueError` (modelled as `Option.none`). -/
def pyInt? (s : String) : Option Int :=
  match charsTrim s.toList with
  | '-' :: rest => (charsToNat? rest).map (fun n => -(n : Int))
  | '+' :: rest => (charsToNat? rest).map (fun n => (n : Int))
  | l => (charsToNat? l).map (fun n => (n : Int))

/-! ## Proleptic Gregorian calendar arithmetic

Used by the concrete model of the shift primitive.  Ordinal day 1 is
0001-01-01, as in CPython `datetime.date.toordinal`. -/

def isLeap (y : Nat) : Bool :=
  y % 4 == 0 && (y % 100 != 0 || y % 400 == 0)

def monthLength (y m : Nat) : Nat :=
  if m = 2 then (if isLeap y then 29 else 28)
  else if m = 4 ∨ m = 6 ∨ m = 9 ∨ m = 11 then 30
  else 31

def daysBeforeYear (y : Nat) : Nat :=
  let n := y - 1
  n * 365 + n / 4 - n / 100 + n / 400

def daysBeforeMonth (y m : Nat) : Nat :=
  (List.range (m - 1)).foldl (fun acc i => acc + monthLength y (i + 1)) 0

def toOrdinal : Nat × Nat × Nat → Nat
  | (y, m, d) => daysBeforeYear y + daysBeforeMonth y m + d

/-- Walk the months of year `y`, consuming a 1-based day-of-year, to find
the month/day pair.  `fuel` is 12 at the top call. -/
def findMonth : Nat → Nat → Nat → Nat → Nat × Nat
  | 0, _, m, doy => (m, doy)
  | fuel + 1, y, m, doy =>
    if doy ≤ monthLength y m then (m, doy)
    else findMonth fuel y (m + 1) (doy - monthLength y m)

/-- Inverse of `toOrdinal`, by the 400/100/4/1-year cycle decomposition
(as in CPython `_ord2ymd`). -/
def fromOrdinal (n : Nat) : Nat × Nat × Nat :=
  let n1 := n - 1
  let n400 := n1 / 146097
  let r := n1 % 146097
  let n100 := r / 36524
  let r2 := r % 36524
  let n4 := r2 / 1461
  let r3 := r2 % 1461
  let ny := r3 / 365
  let r4 := r3 % 365
  if ny = 4 ∨ n100 = 4 then (n400 * 400 + n100 * 100 + n4 * 4 + ny, 12, 31)
  else
    let y := n400 * 400 + n100 * 100 + n4 * 4 + ny + 1
    let md := findMonth 12 y 1 (r4 + 1)
    (y, md.1, md.2)

/-- Shift a calendar date by a signed number of days; `Option.none` models
the `OverflowError` Python raises when the result leaves the supported
year range 1..9999. -/
def addDays : Nat × Nat × Nat → Int → Option (Nat × Nat × Nat)
  | ymd, off =>
    let o : Int := (toOrdinal ymd : Int) + off
    if 1 ≤ o ∧ o ≤ 3652059 then some (fromOrdinal o.toNat) else Option.none

/-! ## Parsing and rendering of the four candidate formats -/

/-- Left-pad the decimal rendering of `n` with zeros to width `w`. -/
def pad (w n : Nat) : String :=
  let s := toString n
  String.mk (List.replicate (w - s.length) '0') ++ s

/-- Parse a `%Y%m%d` date: exactly eight digits, valid month, valid day,
year at least 1 (year 0 is out of range for Python `datetime`). -/
def parseDA (s : String) : Option (Nat × Nat × Nat) :=
  let cs := s.toList
  if cs.length = 8 ∧ allDigits cs = true then
    let y := natOfDigits (cs.take 4)
    let m := natOfDigits ((cs.drop 4).take 2)
    let d := natOfDigits ((cs.drop 6).take 2)
    if 1 ≤ y ∧ 1 ≤ m ∧ m ≤ 12 ∧ 1 ≤ d ∧ d ≤ monthLength y m then some (y, m, d)
    else Option.none
  else Option.none

/-- Parse a `%Y%m%d%H%M%S` timestamp: fourteen digits, valid date part,
hour below 24, minute and second below 60. -/
def parseTS (s : String) : Option ((Nat × Nat × Nat) × (Nat × Nat × Nat)) :=
  let cs := s.toList
  if cs.length = 14 ∧ allDigits cs = true then
    match parseDA (String.mk (cs.take 8)) with
    | some ymd =>
      let hh := natOfDigits ((cs.drop 8).take 2)
      let mi := natOfDigits ((cs.drop 10).take 2)
      let ss := natOfDigits ((cs.drop 12).take 2)
      if hh ≤ 23 ∧ mi ≤ 59 ∧ ss ≤ 59 then some (ymd, (hh, mi, ss)) else Option.none
    | Option.none => Option.none
  else Option.none

/-- Parse a `%Y%m%d%H%M%S.%f` timestamp: a fourteen-digit timestamp, a
dot, then one to six fractional digits (scaled to microseconds, as
CPython does). -/
def parseTSF (s : String) : Option (((Nat × Nat × Nat) × (Nat × Nat × Nat)) × Nat) :=
  match splitOnChar '.' s.toList with
  | [p1, p2] =>
    match parseTS (String.mk p1) with
    | some t =>
      if 1 ≤ p2.length ∧ p2.length ≤ 6 ∧ allDigits p2 = true then
        some (t, natOfDigits p2 * 10 ^ (6 - p2.length))
      else Option.none
    | Option.none => Option.none
  | _ => Option.none

/-- Parse a trailing `%z` timezone written as a sign plus four digits. -/
def parseTZ (cs : List Char) : Option (Char × Nat × Nat) :=
  match cs with
  | [sg, a, b, c, d] =>
    if (sg = '+' ∨ sg = '-') ∧ a.isDigit = true ∧ b.isDigit = true ∧
        c.isDigit = true ∧ d.isDigit = true then
      let hh := digitVal a * 10 + digitVal b
      let mm := digitVal c * 10 + digitVal d
      if hh ≤ 23 ∧ mm ≤ 59 then some (sg, hh, mm) else Option.none
    else Option.none
  | _ => Option.none

/-- Parse a `%Y%m%d%H%M%S.%f%z` timestamp: fractional timestamp followed
by a timezone offset. -/
def parseTSFZ (s : String) :
    Option ((((Nat × Nat × Nat) × (Nat × Nat × Nat)) × Nat) × (Char × Nat × Nat)) :=
  match splitOnChar '.' s.toList with
  | [p1, p2] =>
    match parseTS (String.mk p1) with
    | some t =>
      let fr := p2.takeWhile Char.isDigit
      let tz := p2.drop fr.length
      if 1 ≤ fr.length ∧ fr.length ≤ 6 then
        match parseTZ tz with
        | some z => some ((t, natOfDigits fr * 10 ^ (6 - fr.length)), z)
        | Option.none => Option.none
      else Option.none
    | Option.none => Option.none
  | _ => Option.none

def renderDA : Nat × Nat × Nat → String
  | (y, m, d) => pad 4 y ++ pad 2 m ++ pad 2 d

def renderHMS : Nat × Nat × Nat → String
  | (hh, mi, ss) => pad 2 hh ++ pad 2 mi ++ pad 2 ss

def renderTZ : Char × Nat × Nat → String
  | (sg, hh, mm) => String.mk [sg] ++ pad 2 hh ++ pad 2 mm

/-- Modelled from the spec: the external shift primitive
`get_timestamp(raw, jitter_days, format)` of `deid.utils`, which is not
among the verified sources.  Per the spec it performs, for a single value
and a single candidate pattern, a strict parse of the raw string against
the pattern, shifts the calendar date by `jitter_days`, and re-renders the
result in the same pattern; on a pattern mismatch it fails (raises) rather
than guessing.  Only the four patterns used by `jitter_timestamp` are
supported; overflowing the year range 1..9999 raises, as in Python. -/
def get_timestamp (itemDate : String) (jitterDays : Int) (format : String) :
    Except String String :=
  if format = "%Y%m%d" then
    match parseDA itemDate with
    | some ymd =>
      match addDays ymd jitterDays with
      | some ymd2 => Except.ok (renderDA ymd2)
      | Option.none => Except.error "OverflowError: date value out of range"
    | Option.none =>
      Except.error (s!"time data {itemDate} does not match format Ymd")
  else if format = "%Y%m%d%H%M%S" then
    match parseTS itemDate with
    | some (ymd, hms) =>
      match addDays ymd jitterDays with
      | some ymd2 => Except.ok (renderDA ymd2 ++ renderHMS hms)
      | Option.none => Except.error "OverflowError: date value out of range"
    | Option.none =>
      Except.error (s!"time data {itemDate} does not match format YmdHMS")
  else if format = "%Y%m%d%H%M%S.%f" then
    match parseTSF itemDate with
    | some ((ymd, hms), micro) =>
      match addDays ymd jitterDays with
      | some ymd2 => Except.ok (renderDA ymd2 ++ renderHMS hms ++ "." ++ pad 6 micro)
      | Option.none => Except.error "OverflowError: date value out of range"
    | Option.none =>
      Except.error (s!"time data {itemDate} does not match format YmdHMS.f")
  else if format = "%Y%m%d%H%M%S.%f%z" then
    match parseTSFZ itemDate with
    | some (((ymd, hms), micro), tz) =>
      match addDays ymd jitterDays with
      | some ymd2 =>
        Except.ok (renderDA ymd2 ++ renderHMS hms ++ "." ++ pad 6 micro ++ renderTZ tz)
      | Option.none => Except.error "OverflowError: date value out of range"
    | Option.none =>
      Except.error (s!"time data {itemDate} does not match format YmdHMS.fz")
  else Except.error "ValueError: unsupported format"

/-! ## Model of `ast.literal_eval` on bracketed list strings

`jitter_timestamp` applies `ast.literal_eval` only to scalar strings that
start with `[` and end with `]`.  The model below covers flat list
literals whose elements are decimal integer literals (optionally signed,
without leading zeros, as Python 3 requires) or double-quoted string
literals; every other input fails, as `literal_eval` raises `ValueError`
or a syntax error on non-literal content.  Per the data model of the
spec, a Collection is an ordered sequence of raw strings handed to the
shift primitive, so each parsed element is represented by its textual
rendering (`str` of the parsed literal). -/

def canonNatLit (ds : List Char) : Option String :=
  if ds.isEmpty then Option.none
  else if !allDigits ds then Option.none
  else if 2 ≤ ds.length ∧ ds.head? = some '0' then Option.none
  else some (String.mk ds)

def parsePyIntLit (l : List Char) : Option String :=
  match l with
  | '-' :: ds => (canonNatLit ds).map (fun s => if s = "0" then "0" else "-" ++ s)
  | '+' :: ds => canonNatLit ds
  | ds => canonNatLit ds

def parseElemLit (t0 : List Char) : Option String :=
  let t := charsTrim t0
  match t with
  | '"' :: rest =>
    match rest.getLast? with
    | some c => if c == '"' then some (String.mk rest.dropLast) else Option.none
    | Option.none => Option.none
  | _ => parsePyIntLit t

def parseListLiteral (s : String) : Option (List String) :=
  let cs := s.toList
  if startsWithBracket s && endsWithBracket s && decide (2 ≤ cs.length) then
    let inner := (cs.drop 1).dropLast
    if (charsTrim inner).isEmpty then some []
    else
      let elems := (splitOnChar ',' inner).map parseElemLit
      if elems.all Option.isSome then some (elems.map (fun o => o.getD ""))
      else Option.none
  else Option.none

/-! ## The jitter engine, translated from `jitter.py` -/

/-- Python truthiness of the running `new_value` / `single_jittered`
variable: `None` and the empty string are falsy. -/
def pyTruthy : Option String → Bool
  | Option.none => false
  | some s => !(s == "")

/-- The format list of the generic fallback branch, in source order. -/
def jitterFormats : List String :=
  ["%Y%m%d", "%Y%m%d%H%M%S", "%Y%m%d%H%M%S.%f", "%Y%m%d%H%M%S.%f%z"]

/-- The `for fmtstr in [...]` loop shared by the multi-value and scalar
branches: try each format, log a warning on each failure, stop at the
first success.  Every exception is caught inside the loop body. -/
def genericCascade (shift : Shift) (single : String) (off : Int) :
    List String → Option String × List LogEntry
  | [] => (Option.none, [])
  | fmt :: rest =>
    match shift single off fmt with
    | Except.ok s => (some s, [])
    | Except.error e =>
      let r := genericCascade shift single off rest
      (r.1, ⟨LogLevel.warning, s!"Failed to jitter {single} with format {fmt}: {e}"⟩ :: r.2)

/-- The body of the per-element `try` block of the multi-value branch
(lines 80-145 of `jitter.py`), including the `except Exception` handler
that logs at error level and leaves `single_jittered = None`. -/
def jitterElem (shift : Shift) (vr name single : String) (off : Int) :
    Option String × List LogEntry :=
  if vr = "DA" then
    match shift single off "%Y%m%d" with
    | Except.ok s => (some s, [])
    | Except.error e =>
      (Option.none,
        [⟨LogLevel.error, s!"Unexpected error jittering date {single} in field {name}: {e}"⟩])
  else if vr = "DT" then
    match shift single off "%Y%m%d%H%M%S.%f" with
    | Except.ok s => (some s, [])
    | Except.error e =>
      let w1 : LogEntry := ⟨LogLevel.warning, s!"Failed with microseconds format for {single}: {e}"⟩
      match shift single off "%Y%m%d%H%M%S.%f%z" with
      | Except.ok s => (some s, [w1])
      | Except.error e2 =>
        let w2 : LogEntry := ⟨LogLevel.warning, s!"Failed with timezone format for {single}: {e2}"⟩
        match shift single off "%Y%m%d%H%M%S" with
        | Except.ok s => (some s, [w1, w2])
        | Except.error e3 =>
          (Option.none,
            [w1, w2,
              ⟨LogLevel.error, s!"Unexpected error jittering date {single} in field {name}: {e3}"⟩])
  else genericCascade shift single off jitterFormats

/-- The per-element fallback warning of the multi-value loop. -/
def elemNotSupportedMsg (single vr name : String) : String :=
  s!"JITTER not supported for value {single} with VR={vr} in field {name}"

/-- The multi-value loop (lines 78-152): shift each element, keep the
original element when the shifted result is falsy, accumulate the logs in
program order. -/
def processElems (shift : Shift) (vr name : String) (off : Int) :
    List String → List String × List LogEntry
  | [] => ([], [])
  | x :: xs =>
    let r := jitterElem shift vr name x off
    let rest := processElems shift vr name off xs
    if pyTruthy r.1 then
      ((r.1.getD "") :: rest.1, r.2 ++ rest.2)
    else
      (x :: rest.1,
        r.2 ++ [⟨LogLevel.warning, elemNotSupportedMsg x vr name⟩] ++ rest.2)

/-- The whole multi-value branch: info log, element loop, backslash join
(the join is the same for a pydicom `MultiValue` and a plain list; only
the debug message differs), completion log. -/
def jitterMulti (shift : Shift) (vr name : String) (off : Int) (xs : List String)
    (isMV : Bool) : Option String × List LogEntry :=
  let n := xs.length
  let p := processElems shift vr name off xs
  let joined := String.intercalate "\\" p.1
  let conv : LogEntry :=
    if isMV then ⟨LogLevel.debug, s!"Converted MultiValue to backslash-separated string: {joined}"⟩
    else ⟨LogLevel.debug, s!"Converting list to backslash-separated string: {joined}"⟩
  (some joined,
    ⟨LogLevel.info, s!"Processing {n} dates for multi-value field {name}"⟩ ::
      (p.2 ++ [conv, ⟨LogLevel.debug, s!"Completed jittering {n} dates for field {name}"⟩]))

/-- The scalar `try` block (lines 167-228), including the outer
`except Exception` handler that logs at error level and sets
`new_value = None`.  It differs from `jitterElem` only in the text of the
error-level message. -/
def jitterScalar (shift : Shift) (vr name original : String) (off : Int) :
    Option String × List LogEntry :=
  if vr = "DA" then
    match shift original off "%Y%m%d" with
    | Except.ok s => (some s, [])
    | Except.error e =>
      (Option.none,
        [⟨LogLevel.error, s!"Unexpected error jittering single value {original} in field {name}: {e}"⟩])
  else if vr = "DT" then
    match shift original off "%Y%m%d%H%M%S.%f" with
    | Except.ok s => (some s, [])
    | Except.error e =>
      let w1 : LogEntry := ⟨LogLevel.warning, s!"Failed with microseconds format for {original}: {e}"⟩
      match shift original off "%Y%m%d%H%M%S.%f%z" with
      | Except.ok s => (some s, [w1])
      | Except.error e2 =>
        let w2 : LogEntry := ⟨LogLevel.warning, s!"Failed with timezone format for {original}: {e2}"⟩
        match shift original off "%Y%m%d%H%M%S" with
        | Except.ok s => (some s, [w1, w2])
        | Except.error e3 =>
          (Option.none,
            [w1, w2,
              ⟨LogLevel.error, s!"Unexpected error jittering single value {original} in field {name}: {e3}"⟩])
  else genericCascade shift original off jitterFormats

/-- The final scalar warning (lines 240-243). -/
def jitterNotSupportedMsg (name original vr : String) : String :=
  s!"JITTER not supported for field {name} with value {original} and VR={vr}"

/-- The scalar branch followed by the `if not new_value` warning.  Note:
the function still returns `new_value` itself, so an empty-string result
is returned as the empty string, not as `None`. -/
def scalarPath (shift : Shift) (vr name original : String) (off : Int) :
    Option String × List LogEntry :=
  let r := jitterScalar shift vr name original off
  if pyTruthy r.1 then r
  else (r.1, r.2 ++ [⟨LogLevel.warning, jitterNotSupportedMsg name original vr⟩])

/-- Lines 49-64: a scalar string that looks like a list literal is parsed
with `ast.literal_eval`; on success the parsed list replaces the value,
on failure a warning is logged and the string is kept as-is. -/
def normalizeValue (name : String) (v : DicomValue) : DicomValue × List LogEntry :=
  match v with
  | DicomValue.str s =>
    if startsWithBracket s && endsWithBracket s then
      match parseListLiteral s with
      | some xs => (DicomValue.list xs, [])
      | Option.none =>
        (DicomValue.str s,
          [⟨LogLevel.warning,
            s!"Failed to parse string as list for field {name}: ValueError. Treating as single value."⟩])
    else (DicomValue.str s, [])
  | other => (other, [])

/-- The trailing debug log (lines 249-251). -/
def finalDebug (name : String) (r : Option String) : LogEntry :=
  match r with
  | Option.none => ⟨LogLevel.debug, s!"Jitter returning value: None (type: NoneType) for field {name}"⟩
  | some s => ⟨LogLevel.debug, s!"Jitter returning value: {s} (type: str) for field {name}"⟩

/-- `jitter_timestamp(field, value)` after the integer coercion of its
`value` argument: the whole body guarded by `if original is not None`.
Returns the new value (`None` is `Option.none`) and the log stream. -/
def jitter_core (shift : Shift) (f : DicomField) (off : Int) :
    Option String × List LogEntry :=
  match f.element.value with
  | DicomValue.none =>
    (Option.none,
      [⟨LogLevel.debug, "Field " ++ f.name ++ " has None/empty value, skipping jitter"⟩,
        finalDebug f.name Option.none])
  | v0 =>
    let norm := normalizeValue f.name v0
    let core : Option String × List LogEntry :=
      match norm.1 with
      | DicomValue.multi xs => jitterMulti shift f.element.VR f.name off xs true
      | DicomValue.list xs => jitterMulti shift f.element.VR f.name off xs false
      | DicomValue.str s => scalarPath shift f.element.VR f.name s off
      | DicomValue.none => (Option.none, [])
    (core.1, norm.2 ++ core.2 ++ [finalDebug f.name core.1])

/-- The `value` argument of `jitter_timestamp` as Python receives it:
either already an `int` or a string to be coerced. -/
inductive PyArg
  | int (n : Int)
  | str (s : String)
deriving DecidableEq, Repr

/-- `jitter_timestamp(field, value)` including lines 41-42: a non-`int`
value is coerced with `int(value)`, which raises `ValueError` for a
non-integer string; that exception is the only one that escapes. -/
def jitter_timestamp (shift : Shift) (f : DicomField) (v : PyArg) :
    Except String (Option String × List LogEntry) :=
  match v with
  | PyArg.int n => Except.ok (jitter_core shift f n)
  | PyArg.str s =>
    match pyInt? s with
    | some n => Except.ok (jitter_core shift f n)
    | Option.none => Except.error "ValueError: invalid literal for int"

/-! ## The option adapter (`jitter_timestamp_func`, lines 13-25) -/

/-- Python `opts.get(key)` over the parsed key-value map, modelled as an
association list. -/
def optsGet (opts : List (String × String)) (k : String) : Option String :=
  match opts.find? (fun p => p.1 == k) with
  | some p => some p.2
  | Option.none => Option.none

def resolveYears (opts : List (String × String)) (base : Int) : Except String Int :=
  match optsGet opts "years" with
  | Option.none => Except.ok base
  | some s =>
    match pyInt? s with
    | some y => Except.ok (y * 365 + base)
    | Option.none => Except.error "ValueError"

/-- The offset-resolution part of `jitter_timestamp_func`:
`value = int(opts.get("days", 1))`, then
`value = int(opts["years"]) * 365 + value` when `years` is present.
`int()` raises `ValueError` on an unparsable string. -/
def resolve_jitter_offset (opts : List (String × String)) : Except String Int :=
  match optsGet opts "days" with
  | Option.none => resolveYears opts 1
  | some s =>
    match pyInt? s with
    | some n => resolveYears opts n
    | Option.none => Except.error "ValueError"

/-- `jitter_timestamp_func(item, value, field, **kwargs)`: resolve the
offset from the options, then delegate to `jitter_timestamp`. -/
def jitter_timestamp_func (shift : Shift) (opts : List (String × String))
    (f : DicomField) : Except String (Option String × List LogEntry) :=
  match resolve_jitter_offset opts with
  | Except.ok n => jitter_timestamp shift f (PyArg.int n)
  | Except.error e => Except.error e

/-- The candidate offsets of `daysParsed`/`yearsParsed` below mirror the
defaulting rules: `days` defaults to 1 when absent, `years` contributes 0
when absent. -/
def daysParsed (opts : List (String × String)) : Option Int :=
  match optsGet opts "days" with
  | Option.none => some 1
  | some s => pyInt? s

def yearsParsed (opts : List (String × String)) : Option Int :=
  match optsGet opts "years" with
  | Option.none => some 0
  | some s => pyInt? s

/-- The element-level outcome of the multi-value loop: the shifted string
when it is truthy, the original element otherwise. -/
def elemFinal (shift : Shift) (vr name : String) (off : Int) (x : String) : String :=
  match (jitterElem shift vr name x off).1 with
  | some s => if s == "" then x else s
  | Option.none => x

/-! ## Helper lemmas shared by several theorems -/

theorem processElems_fst (shift : Shift) (vr name : String) (off : Int) (xs : List String) :
    (processElems shift vr name off xs).1 = xs.map (elemFinal shift vr name off) := by
  induction xs with
  | nil => rfl
  | cons x xs ih =>
    simp only [processElems, List.map_cons]
    cases hr : (jitterElem shift vr name x off).1 with
    | none => simp [pyTruthy, hr, elemFinal, ih]
    | some s =>
      cases hs : s == "" <;> simp [pyTruthy, hr, hs, elemFinal, ih]

theorem processElems_warn_of_fail (shift : Shift) (vr name : String) (off : Int)
    (xs : List String) (x : String) (hx : x ∈ xs)
    (hfail : (jitterElem shift vr name x off).1 = Option.none) :
    ((processElems shift vr name off xs).2.any (fun l => l.level == LogLevel.warning)) = true := by
  induction xs with
  | nil => cases hx
  | cons y ys ih =>
    rcases List.mem_cons.mp hx with h | h
    · subst h
      simp [processElems, pyTruthy, hfail, List.any_append]
    · cases hr : pyTruthy (jitterElem shift vr name y off).1 <;>
        simp [processElems, hr, List.any_append, ih h]

/-! ## Claim theorems -/

/-- C1, counterexample: the claim says an empty-string value is returned
unchanged with no warning and only debug logs; in the code the empty
string does not pass the `original is not None` guard, is processed as a
scalar, fails every format, and the call returns `None` (not the empty
string) after emitting warnings. -/
theorem jitter_empty_string_not_noop :
    (jitter_core get_timestamp ⟨"StudyDate", ⟨"DA", DicomValue.str ""⟩⟩ 1).1 = Option.none ∧
    (jitter_core get_timestamp ⟨"StudyDate", ⟨"DA", DicomValue.str ""⟩⟩ 1).1 ≠ some "" ∧
    ((jitter_core get_timestamp ⟨"StudyDate", ⟨"DA", DicomValue.str ""⟩⟩ 1).2.any
      (fun l => l.level == LogLevel.warning)) = true :=
  ⟨by decide, by decide, by decide⟩

/-- C1, amended: only when the current value is `None` does `jitter_timestamp`
return the original value unchanged, with no warning and only debug-level
logs; an empty string or an empty collection is not short-circuited. -/
theorem jitter_none_value_noop (shift : Shift) (f : DicomField) (off : Int)
    (hv : f.element.value = DicomValue.none) :
    (jitter_core shift f off).1 = Option.none ∧
    (∀ l ∈ (jitter_core shift f off).2, l.level = LogLevel.debug) := by
  obtain ⟨name, VR, val⟩ := f
  simp only at hv
  subst hv
  refine ⟨rfl, ?_⟩
  intro l hl
  simp only [jitter_core, finalDebug, List.mem_cons, List.not_mem_nil, or_false] at hl
  rcases hl with h | h <;> simp [h]

/-- C1 witness for the amended theorem. -/
theorem jitter_none_value_noop_witness :
    (jitter_core get_timestamp ⟨"StudyDate", ⟨"DA", DicomValue.none⟩⟩ 1).1 = Option.none ∧
    (∀ l ∈ (jitter_core get_timestamp ⟨"StudyDate", ⟨"DA", DicomValue.none⟩⟩ 1).2,
      l.level = LogLevel.debug) :=
  jitter_none_value_noop get_timestamp ⟨"StudyDate", ⟨"DA", DicomValue.none⟩⟩ 1 rfl

/-- C2, counterexample: the option adapter is claimed never to raise, but
`int(opts.get("days", 1))` raises `ValueError` on a present, unparsable
`days` value. -/
theorem resolve_offset_unparsable_raises :
    resolve_jitter_offset [("days", "abc")] = Except.error "ValueError" := rfl

/-- C2, amended: the adapter returns `years * 365 + days`, where `days`
defaults to 1 when absent and `years` contributes 0 when absent, whenever
every present value parses as an integer; a present unparsable `days` or
`years` value raises `ValueError`. -/
theorem resolve_offset_amended (opts : List (String × String)) (d y : Int)
    (hd : daysParsed opts = some d) (hy : yearsParsed opts = some y) :
    resolve_jitter_offset opts = Except.ok (y * 365 + d) := by
  unfold daysParsed at hd
  unfold yearsParsed at hy
  unfold resolve_jitter_offset resolveYears
  cases hds : optsGet opts "days" <;> cases hys : optsGet opts "years" <;>
    rw [hds] at hd <;> rw [hys] at hy <;> simp_all <;> omega

/-- C2 witness for the amended theorem. -/
theorem resolve_offset_amended_witness :
    resolve_jitter_offset [("days", "3"), ("years", "2")] = Except.ok (2 * 365 + 3) :=
  resolve_offset_amended [("days", "3"), ("years", "2")] 3 2 rfl rfl

/-- C9: a bracketed scalar string that fails to parse as a list literal
produces one warning from the unwrap step and is processed as a scalar
with the brackets retained; the invocation continues. -/
theorem malformed_literal_scalar_fallback (shift : Shift) (name vr s : String) (off : Int)
    (h1 : startsWithBracket s = true) (h2 : endsWithBracket s = true)
    (h3 : parseListLiteral s = Option.none) :
    normalizeValue name (DicomValue.str s) =
      (DicomValue.str s,
        [⟨LogLevel.warning,
          s!"Failed to parse string as list for field {name}: ValueError. Treating as single value."⟩]) ∧
    (jitter_core shift ⟨name, ⟨vr, DicomValue.str s⟩⟩ off).1 = (scalarPath shift vr name s off).1 := by
  have hn : normalizeValue name (DicomValue.str s) =
      (DicomValue.str s,
        [⟨LogLevel.warning,
          s!"Failed to parse string as list for field {name}: ValueError. Treating as single value."⟩]) := by
    simp [normalizeValue, h1, h2, h3]
  refine ⟨hn, ?_⟩
  simp [jitter_core, hn]

/-- C9 witness. -/
theorem malformed_literal_scalar_fallback_witness :
    normalizeValue "StudyDate" (DicomValue.str "[20200101, oops]") =
      (DicomValue.str "[20200101, oops]",
        [⟨LogLevel.warning,
          "Failed to parse string as list for field StudyDate: ValueError. Treating as single value."⟩]) ∧
    (jitter_core get_timestamp ⟨"StudyDate", ⟨"DA", DicomValue.str "[20200101, oops]"⟩⟩ 1).1 =
      (scalarPath get_timestamp "DA" "StudyDate" "[20200101, oops]" 1).1 :=
  malformed_literal_scalar_fallback get_timestamp "StudyDate" "DA" "[20200101, oops]" 1
    (by decide) (by decide) (by decide)

/-- C10: the offset argument is coerced with `int()` before any field
processing; a non-convertible string raises `ValueError` to the caller,
while an `int` or an integer-formatted string never raises. -/
theorem offset_coercion_valueerror (shift : Shift) (f : DicomField) :
    jitter_timestamp shift f (PyArg.str "abc") = Except.error "ValueError: invalid literal for int" ∧
    jitter_timestamp shift f (PyArg.str "1.5") = Except.error "ValueError: invalid literal for int" ∧
    (∀ n : Int, jitter_timestamp shift f (PyArg.int n) = Except.ok (jitter_core shift f n)) ∧
    (∀ s n, pyInt? s = some n →
      jitter_timestamp shift f (PyArg.str s) = Except.ok (jitter_core shift f n)) := by
  refine ⟨rfl, rfl, fun n => rfl, fun s n h => ?_⟩
  simp [jitter_timestamp, h]

/-- C10 witness. -/
theorem offset_coercion_valueerror_witness :
    jitter_timestamp get_timestamp ⟨"StudyDate", ⟨"DA", DicomValue.none⟩⟩ (PyArg.str "7") =
      Except.ok (jitter_core get_timestamp ⟨"StudyDate", ⟨"DA", DicomValue.none⟩⟩ 7) :=
  (offset_coercion_valueerror get_timestamp ⟨"StudyDate", ⟨"DA", DicomValue.none⟩⟩).2.2.2 "7" 7 rfl

/-- C3: with an integer offset no exception reaches the caller: the call
always returns `Except.ok`; a scalar whose cascade fails yields `None`
plus a warning; a failing collection element is preserved at its index
and a warning is logged. -/
theorem jitter_never_raises_degrades (shift : Shift) (f : DicomField) (off : Int) :
    jitter_timestamp shift f (PyArg.int off) = Except.ok (jitter_core shift f off) ∧
    (∀ s, f.element.value = DicomValue.str s →
      (normalizeValue f.name (DicomValue.str s)).1 = DicomValue.str s →
      (jitterScalar shift f.element.VR f.name s off).1 = Option.none →
      (jitter_core shift f off).1 = Option.none ∧
      ((jitter_core shift f off).2.any (fun l => l.level == LogLevel.warning)) = true) ∧
    (∀ xs, f.element.value = DicomValue.multi xs →
      ∀ i, ∀ hi : i < xs.length,
      (jitterElem shift f.element.VR f.name (xs.get ⟨i, hi⟩) off).1 = Option.none →
      (processElems shift f.element.VR f.name off xs).1[i]? = some (xs.get ⟨i, hi⟩) ∧
      ((processElems shift f.element.VR f.name off xs).2.any
        (fun l => l.level == LogLevel.warning)) = true) := by
  obtain ⟨name, VR, val⟩ := f
  refine ⟨rfl, ?_, ?_⟩
  · intro s hv hn hfail
    simp only at hv
    subst hv
    constructor
    · simp [jitter_core, hn, scalarPath, hfail, pyTruthy]
    · simp [jitter_core, hn, scalarPath, hfail, pyTruthy, List.any_append]
  · intro xs hv i hi hfail
    simp only at hv
    subst hv
    simp only at hfail
    rw [List.get_eq_getElem] at hfail
    constructor
    · rw [processElems_fst]
      simp only [List.getElem?_map]
      rw [List.getElem?_eq_getElem hi]
      simp [List.get_eq_getElem, elemFinal, hfail]
    · exact processElems_warn_of_fail shift VR name off xs xs[i]
        (List.getElem_mem hi) hfail

/-- C3 witness: a scalar field whose value parses under no candidate
format yields `None` plus a warning, with no exception. -/
theorem jitter_never_raises_degrades_witness :
    (jitter_core get_timestamp ⟨"PatientName", ⟨"DA", DicomValue.str "nope"⟩⟩ 1).1 = Option.none ∧
    ((jitter_core get_timestamp ⟨"PatientName", ⟨"DA", DicomValue.str "nope"⟩⟩ 1).2.any
      (fun l => l.level == LogLevel.warning)) = true :=
  (jitter_never_raises_degrades get_timestamp ⟨"PatientName", ⟨"DA", DicomValue.str "nope"⟩⟩ 1).2.1
    "nope" rfl (by decide) (by decide)

/-- C4: on a collection value each element is shifted independently with
the same offset, the order is preserved index for index (the result is
the element-wise map of `elemFinal`), an element whose shift fails keeps
its original string, and the result is the backslash join of the
elements. -/
theorem jitter_collection_elementwise (shift : Shift) (f : DicomField) (off : Int)
    (xs : List String)
    (hv : f.element.value = DicomValue.multi xs ∨ f.element.value = DicomValue.list xs) :
    (jitter_core shift f off).1 =
      some (String.intercalate "\\" (xs.map (elemFinal shift f.element.VR f.name off))) ∧
    (processElems shift f.element.VR f.name off xs).1 =
      xs.map (elemFinal shift f.element.VR f.name off) ∧
    (∀ x, (jitterElem shift f.element.VR f.name x off).1 = Option.none →
      elemFinal shift f.element.VR f.name off x = x) := by
  obtain ⟨name, VR, val⟩ := f
  refine ⟨?_, processElems_fst shift VR name off xs, ?_⟩
  · rcases hv with hv | hv <;> simp only at hv <;> subst hv <;>
      simp [jitter_core, normalizeValue, jitterMulti, processElems_fst]
  · intro x hx
    simp [elemFinal, hx]

/-- C4 witness. -/
theorem jitter_collection_elementwise_witness :
    (jitter_core get_timestamp ⟨"Dates", ⟨"DA", DicomValue.multi ["20200101", "bad"]⟩⟩ 1).1 =
      some ("20200102" ++ "\\" ++ "bad") :=
  ((jitter_collection_elementwise get_timestamp
      ⟨"Dates", ⟨"DA", DicomValue.multi ["20200101", "bad"]⟩⟩ 1 ["20200101", "bad"]
      (Or.inl rfl)).1).trans (by decide)

/-- C5: for a scalar with VR `DT` the candidates are tried in the order
fractional-without-timezone, fractional-with-timezone, whole-second, the
first success winning; concretely, `"20200101120000"` with offset 1
succeeds via the whole-second candidate and yields `"20200102120000"`. -/
theorem jitter_dt_cascade_order (shift : Shift) (name s : String) (off : Int) :
    (∀ r, shift s off "%Y%m%d%H%M%S.%f" = Except.ok r →
      (jitterScalar shift "DT" name s off).1 = some r) ∧
    (∀ e r, shift s off "%Y%m%d%H%M%S.%f" = Except.error e →
      shift s off "%Y%m%d%H%M%S.%f%z" = Except.ok r →
      (jitterScalar shift "DT" name s off).1 = some r) ∧
    (∀ e e2 r, shift s off "%Y%m%d%H%M%S.%f" = Except.error e →
      shift s off "%Y%m%d%H%M%S.%f%z" = Except.error e2 →
      shift s off "%Y%m%d%H%M%S" = Except.ok r →
      (jitterScalar shift "DT" name s off).1 = some r) ∧
    (jitter_core get_timestamp
      ⟨"AcquisitionDateTime", ⟨"DT", DicomValue.str "20200101120000"⟩⟩ 1).1 =
      some "20200102120000" := by
  refine ⟨fun r h => ?_, fun e r h h2 => ?_, fun e e2 r h h2 h3 => ?_, by decide⟩
  · simp [jitterScalar, h]
  · simp [jitterScalar, h, h2]
  · simp [jitterScalar, h, h2, h3]

/-- C5 witness: the concrete cascade run, applied through the theorem. -/
theorem jitter_dt_cascade_order_witness :
    (jitterScalar get_timestamp "DT" "AcquisitionDateTime" "20200101120000" 1).1 =
      some "20200102120000" :=
  (jitter_dt_cascade_order get_timestamp "AcquisitionDateTime" "20200101120000" 1).2.2.1
    _ _ "20200102120000" rfl rfl rfl

/-- C6: a scalar string that parses as a list literal is treated as a
collection: every element is shifted and the results are joined with the
backslash separator; concretely `"[20200101, 20200103]"` under VR `DA`
with offset 1 yields `"20200102\20200104"`. -/
theorem jitter_list_literal_unwrap (shift : Shift) (name vr s : String) (off : Int)
    (xs : List String)
    (h1 : startsWithBracket s = true) (h2 : endsWithBracket s = true)
    (h3 : parseListLiteral s = some xs) :
    (jitter_core shift ⟨name, ⟨vr, DicomValue.str s⟩⟩ off).1 =
      some (String.intercalate "\\" (xs.map (elemFinal shift vr name off))) ∧
    (jitter_core get_timestamp
      ⟨"AcquisitionDate", ⟨"DA", DicomValue.str "[20200101, 20200103]"⟩⟩ 1).1 =
      some "20200102\\20200104" := by
  refine ⟨?_, by decide⟩
  simp [jitter_core, normalizeValue, h1, h2, h3, jitterMulti, processElems_fst]

/-- C6 witness. -/
theorem jitter_list_literal_unwrap_witness :
    (jitter_core get_timestamp
      ⟨"AcquisitionDate", ⟨"DA", DicomValue.str "[20200101, 20200103]"⟩⟩ 1).1 =
      some ("20200102" ++ "\\" ++ "20200104") :=
  ((jitter_list_literal_unwrap get_timestamp "AcquisitionDate" "DA" "[20200101, 20200103]" 1
      ["20200101", "20200103"] (by decide) (by decide) (by decide)).1).trans (by decide)

/-- C7: a VR other than `DA` and `DT` selects the generic cascade over
the format list date-only, whole-second, fractional, fractional-with-
timezone, in that order, stopping at the first success; there is no
fatal unsupported-type branch. -/
theorem jitter_generic_cascade (shift : Shift) (name s vr : String) (off : Int)
    (hda : vr ≠ "DA") (hdt : vr ≠ "DT") :
    jitterScalar shift vr name s off = genericCascade shift s off jitterFormats ∧
    jitterFormats = ["%Y%m%d", "%Y%m%d%H%M%S", "%Y%m%d%H%M%S.%f", "%Y%m%d%H%M%S.%f%z"] ∧
    (∀ fmt rest r, shift s off fmt = Except.ok r →
      (genericCascade shift s off (fmt :: rest)).1 = some r) ∧
    (∀ fmt rest e, shift s off fmt = Except.error e →
      (genericCascade shift s off (fmt :: rest)).1 = (genericCascade shift s off rest).1) ∧
    (genericCascade shift s off []).1 = Option.none := by
  refine ⟨?_, rfl, fun fmt rest r h => ?_, fun fmt rest e h => ?_, rfl⟩
  · simp [jitterScalar, hda, hdt]
  · simp [genericCascade, h]
  · simp [genericCascade, h]

/-- C7 witness: VR `TM` falls into the generic cascade and the date-only
candidate succeeds first. -/
theorem jitter_generic_cascade_witness :
    jitterScalar get_timestamp "TM" "StudyTime" "20200101" 1 =
      genericCascade get_timestamp "20200101" 1 jitterFormats :=
  (jitter_generic_cascade get_timestamp "StudyTime" "20200101" "TM" 1
    (by decide) (by decide)).1

/-- A shift primitive that always returns the empty string; used to
exercise the falsy-result branch of the scalar path. -/
def constEmptyShift : Shift := fun _ _ _ => Except.ok ""

/-- C8, counterexample: when the scalar shift result is the empty string
the warning fires, but the function returns the empty string itself, not
`None` as the claim states. -/
theorem scalar_empty_result_returned_not_null :
    (jitter_core constEmptyShift ⟨"StudyDate", ⟨"DA", DicomValue.str "20200101"⟩⟩ 1).1 =
      some "" ∧
    some "" ≠ (Option.none : Option String) ∧
    (⟨LogLevel.warning, jitterNotSupportedMsg "StudyDate" "20200101" "DA"⟩ : LogEntry) ∈
      (jitter_core constEmptyShift ⟨"StudyDate", ⟨"DA", DicomValue.str "20200101"⟩⟩ 1).2 :=
  ⟨by decide, by decide, by decide⟩

/-- C8, amended: on the scalar path a falsy shift result triggers the
single warning naming the field, the original value and the VR, and the
falsy result itself is returned: `None` when every candidate failed, the
empty string when the shift produced an empty string. -/
theorem scalar_falsy_warning_amended (shift : Shift) (f : DicomField) (s : String) (off : Int)
    (hv : f.element.value = DicomValue.str s)
    (hn : (normalizeValue f.name (DicomValue.str s)).1 = DicomValue.str s)
    (hf : pyTruthy (jitterScalar shift f.element.VR f.name s off).1 = false) :
    (jitter_core shift f off).1 = (jitterScalar shift f.element.VR f.name s off).1 ∧
    (⟨LogLevel.warning, jitterNotSupportedMsg f.name s f.element.VR⟩ : LogEntry) ∈
      (jitter_core shift f off).2 := by
  obtain ⟨name, VR, val⟩ := f
  simp only at hv hn hf ⊢
  subst hv
  constructor
  · simp [jitter_core, hn, scalarPath, hf]
  · simp [jitter_core, hn, scalarPath, hf, List.mem_append]

/-- C8 witness for the amended theorem. -/
theorem scalar_falsy_warning_amended_witness :
    (jitter_core get_timestamp ⟨"StudyDate", ⟨"DA", DicomValue.str "zzz"⟩⟩ 1).1 =
      (jitterScalar get_timestamp "DA" "StudyDate" "zzz" 1).1 ∧
    (⟨LogLevel.warning, jitterNotSupportedMsg "StudyDate" "zzz" "DA"⟩ : LogEntry) ∈
      (jitter_core get_timestamp ⟨"StudyDate", ⟨"DA", DicomValue.str "zzz"⟩⟩ 1).2 :=
  scalar_falsy_warning_amended get_timestamp ⟨"StudyDate", ⟨"DA", DicomValue.str "zzz"⟩⟩
    "zzz" 1 rfl (by decide) (by decide)

end Deid
